import Mathlib

/-!
Verification development for the MoonBot Discord bot repository.

The repository holds three near-duplicate revisions of one bot:
  * `part_000`  — revision with startup environment checks, a welcome-channel
    guard, and a first-match invite scan in the `guildMemberAdd` handler;
  * `index.js`, first revision (lines 1-254)   — hardcodes the inviter as
    "Unknown" and performs no channel guard;
  * `index.js`, second revision (lines 255-590) — scans the fetched invites but
    restricts the match to invites whose inviter id equals the joining member id.

Strings from the source are embedded as `List Char` so that the JavaScript
string operations (`trim`, `slice`, `split`, `startsWith`, first-occurrence
`replace`) can be modelled executably and reasoned about by induction.
Fallible awaits are passed in as `Except` oracles; observable effects
(log lines, channel sends, replies, outbound API calls) are collected in an
`Action` trace.  An `Option Unit` component records whether an exception
escaped a handler (`some ()` = an uncaught rejection left the handler).
-/

namespace MoonBot

/-- Strings of the JavaScript source, embedded as lists of characters. -/
abbrev Str := List Char

/-- Coerce a Lean string literal to the `List Char` embedding. -/
def str (s : String) : Str := s.toList

/-- Whitespace predicate used by the embedding of the JavaScript `trim`. -/
def jsIsWhitespace (c : Char) : Bool := c.isWhitespace

/-- Embedding of JavaScript `String.prototype.trimStart`. -/
def trimStart (s : Str) : Str := s.dropWhile jsIsWhitespace

/-- Embedding of JavaScript `String.prototype.trimEnd`. -/
def trimEnd (s : Str) : Str := (s.reverse.dropWhile jsIsWhitespace).reverse

/-- Embedding of JavaScript `String.prototype.trim`. -/
def jsTrim (s : Str) : Str := trimEnd (trimStart s)

/-- Embedding of JavaScript `String.prototype.startsWith`. -/
def strStartsWith : Str → Str → Bool
  | _, [] => true
  | [], _ :: _ => false
  | c :: cs, p :: ps => c == p && strStartsWith cs ps

/-- Embedding of JavaScript `s.replace(pat, "")` (replaces only the FIRST
occurrence of `pat`, removing it). -/
def replaceFirst : Str → Str → Str
  | [], _ => []
  | c :: cs, pat =>
    if strStartsWith (c :: cs) pat then List.drop pat.length (c :: cs)
    else c :: replaceFirst cs pat

/-- Helper for the embedding of JavaScript `String.prototype.split`. -/
def splitOnCharAux (sep : Char) : Str → Str → List Str
  | [], acc => [acc.reverse]
  | c :: cs, acc =>
    if c = sep then acc.reverse :: splitOnCharAux sep cs []
    else splitOnCharAux sep cs (c :: acc)

/-- Embedding of JavaScript `s.split(sep)` for a single-character separator. -/
def splitOnChar (sep : Char) (s : Str) : List Str := splitOnCharAux sep s []

/-- Embedding of JavaScript `String.prototype.toLowerCase` (ASCII range). -/
def lowerStr (s : Str) : Str := s.map Char.toLower

/-- Embedding of JavaScript `String.prototype.toUpperCase` (ASCII range). -/
def upperStr (s : Str) : Str := s.map Char.toUpper

/-- Decimal rendering of a number, as JavaScript template literals do. -/
def natToStr (n : Nat) : Str := (Nat.repr n).toList

/-- The sentinel inviter value used by all three revisions. -/
def strUnknown : Str := str "Unknown"

/-- A user reference carried by an invite (`invite.inviter`). -/
structure UserRef where
  id : Str
  tag : Str
deriving DecidableEq, Repr

/-- One entry of a fetched invite list:
`{code, inviter: UserRef | absent, uses}`. -/
structure Invite where
  code : Str
  inviter : Option UserRef
  uses : Nat
deriving DecidableEq, Repr

/-- The joining or leaving member as the handlers read it
(`member.user.tag`, `member.user.id`, `member.user.createdAt.toDateString()`,
`member.guild.name`, `member.guild.memberCount`, avatar URL). -/
structure Member where
  userId : Str
  userTag : Str
  createdAtDateString : Str
  guildName : Str
  memberCount : Nat
  avatarUrl : Str
deriving DecidableEq, Repr

/-- A resolved channel (identified by its id or name). -/
abbrev Channel := Str

/-- Observable effects of the handlers, in program order. -/
inductive Action where
  | logInfo (s : Str)
  | logDebug (s : Str)
  | logError (s : Str)
  | warn (s : Str)
  | fetchInvitesCall
  | send (content : Str)
  | sendWithAvatar (content : Str) (avatar : Option Str)
  | reply (content : Str)
  | openAICall (question : Str)
deriving DecidableEq, Repr

/-- Recognizer for the outbound chat-completion call action. -/
def Action.isOpenAICall : Action → Bool
  | .openAICall _ => true
  | _ => false

/-- Recognizer for a reply sent back to the triggering message. -/
def Action.isReply : Action → Bool
  | .reply _ => true
  | _ => false

/-- Recognizer for any message-send attempt (channel send or reply). -/
def Action.isSend : Action → Bool
  | .send _ => true
  | .sendWithAvatar _ _ => true
  | .reply _ => true
  | _ => false

/-- Recognizer for the invite-fetch call. -/
def Action.isFetch : Action → Bool
  | .fetchInvitesCall => true
  | _ => false

/-- Number of chat-completion requests in a trace. -/
def countOpenAI (l : List Action) : Nat := l.countP Action.isOpenAICall

/-- Number of replies in a trace. -/
def countReplies (l : List Action) : Nat := l.countP Action.isReply

/-- Number of invite fetches in a trace. -/
def countFetches (l : List Action) : Nat := l.countP Action.isFetch

/-! ## Invite attribution, `part_000` revision (lines 84-96)

```js
const fetchInvites = await member.guild.invites.fetch();
const usedInvite = fetchInvites.find(invite => invite.uses > 0 && invite.inviter);
const invitedBy = usedInvite ? usedInvite.inviter.tag : 'Unknown';
```
-/

/-- The predicate of the `part_000` scan: `invite.uses > 0 && invite.inviter`. -/
def part000_pred (inv : Invite) : Bool :=
  decide (0 < inv.uses) && inv.inviter.isSome

/-- The `find` call of the `part_000` scan (first entry in stored order). -/
def part000_findUsedInvite (invites : List Invite) : Option Invite :=
  invites.find? part000_pred

/-- The `invitedBy` value computed by the `part_000` handler from a
successfully fetched invite list. -/
def part000_invitedBy (invites : List Invite) : Str :=
  match part000_findUsedInvite invites with
  | some inv =>
    match inv.inviter with
    | some u => u.tag
    | none => strUnknown
  | none => strUnknown

/-- The inviter lookup of `part_000` including the fetch: the fetch is NOT
wrapped in try/catch there, so a failed fetch escapes as `.error` instead of
producing a value. -/
def part000_attributeResult (fetch : Except Unit (List Invite)) : Except Unit Str :=
  match fetch with
  | .error e => .error e
  | .ok invs => .ok (part000_invitedBy invs)

/-! ## Invite attribution, `index.js` second revision (lines 479-488)

```js
const invites = await member.guild.invites.fetch();
const usedInvite = invites.find(invite => invite.uses > 0 && invite.inviter.id === member.id);
if (usedInvite) { invitedBy = usedInvite.inviter.tag; }
```
inside `try { ... } catch (error) { logger.error(...) }`.  Note that
`invite.inviter.id` throws a TypeError when `inviter` is null, which the
surrounding catch swallows. -/

/-- The scan of the second revision: first invite with `uses > 0` whose
inviter id equals the JOINING member id; dereferencing a null inviter
throws (`.error`). -/
def indexRev2_scan (memberId : Str) : List Invite → Except Unit (Option Invite)
  | [] => .ok none
  | inv :: rest =>
    if 0 < inv.uses then
      match inv.inviter with
      | none => .error ()
      | some u =>
        if u.id = memberId then .ok (some inv) else indexRev2_scan memberId rest
    else indexRev2_scan memberId rest

/-- The `invitedBy` value of the second revision, with the fetch outcome as
input; both a failed fetch and a TypeError inside the scan are caught and
leave the default `Unknown`. -/
def indexRev2_invitedBy (memberId : Str) (fetch : Except Unit (List Invite)) : Str :=
  match fetch with
  | .error _ => strUnknown
  | .ok invs =>
    match indexRev2_scan memberId invs with
    | .error _ => strUnknown
    | .ok none => strUnknown
    | .ok (some inv) =>
      match inv.inviter with
      | some u => u.tag
      | none => strUnknown

/-- The `invitedBy` of the first `index.js` revision (line 213):
`const invitedBy = "Unknown";` — a constant, no fetch, no scan. -/
def indexRev1_invitedBy (_m : Member) : Str := strUnknown

/-! ## Chat completion: `getOpenAIAnswer`

First revision (lines 176-196) returns `response.data.choices[0].text.trim()`;
second revision (lines 430-459) returns
`response.data.choices[0].message.content.trim()`.  In both, an axios error is
logged and rethrown, and the successful text is only trimmed — there is no
length truncation anywhere between the endpoint and `message.reply(answer)`.
The axios outcome is passed in as an `Except`, carrying the extracted response
text on success. -/

/-- Embedding of `getOpenAIAnswer` (both revisions): trim the response text on
success, rethrow the error on failure. -/
def getOpenAIAnswer (apiOutcome : Except Unit Str) : Except Unit Str :=
  match apiOutcome with
  | .ok content => .ok (jsTrim content)
  | .error e => .error e

/-- Platform message-length limit referenced by the specification
(Discord: 2000 characters). -/
def DISCORD_MESSAGE_LIMIT : Nat := 2000

/-! ## The `messageCreate` handler (`index.js` lines 104-173 and 358-427)

The two revisions coincide on everything modelled here except the GIF category
pool of the `!roll` branch, which is passed in as a parameter.  Fallible awaits
are supplied by oracles; the global `lastCommandTimestamp` is the `Int` state
threaded through the handler.  Note the shape of the source: the `!ping` branch
returns early, while the mention, `!ask` and `!roll` branches are successive
independent `if` statements. -/

/-- Oracles for the fallible or random awaits inside `messageCreate`:
the chat-completion outcome per question text, the Giphy outcome, and the two
`Math.random()` draws of the `!roll` branch. -/
structure Oracles where
  api : Str → Except Unit Str
  gif : Except Unit Str
  gifIdx : Nat
  rollDraw : Nat

/-- A message as the handler reads it: `message.author.bot`, `message.content`,
`message.mentions.has(client.user)`, and the author identity (never consulted
by the cooldown, which is a single process-global timestamp). -/
structure MsgIn where
  authorId : Str
  authorBot : Bool
  content : Str
  mentionsBot : Bool
deriving DecidableEq, Repr

/-- The literal mention token removed by the mention branch:
`` `<@!${client.user.id}>` ``. -/
def mentionToken (botId : Str) : Str := str "<@!" ++ botId ++ str ">"

/-- The question of the mention branch:
`message.content.replace(mentionToken, '').trim()`. -/
def mentionQuestion (botId content : Str) : Str :=
  jsTrim (replaceFirst content (mentionToken botId))

/-- The question of the `!ask` branch: `message.content.slice(5).trim()`. -/
def askQuestion (content : Str) : Str := jsTrim (content.drop 5)

/-- Apology of the mention branch catch clause. -/
def apologyBrain : Str := str "Oops! Something went wrong with my brain."

/-- Apology of the `!ask` branch catch clause. -/
def apologyResponse : Str := str "Oops! Something went wrong with my response."

/-- A guarded chat-completion call:
`try { const answer = await getOpenAIAnswer(q); message.reply(answer); }
catch (error) { message.reply(apology); }`. -/
def aiCall (o : Oracles) (q apology : Str) : List Action :=
  Action.openAICall q ::
    match getOpenAIAnswer (o.api q) with
    | .ok answer => [Action.reply answer]
    | .error _ => [Action.reply apology]

/-- The `DICE_SIZES` table. -/
def DICE_SIZES : List (Str × Nat) :=
  [(str "d4", 4), (str "d6", 6), (str "d8", 8), (str "d10", 10),
   (str "d12", 12), (str "d20", 20), (str "d100", 100)]

/-- `DICE_SIZES[diceType]` property lookup. -/
def diceLookup (s : Str) : Option Nat :=
  (DICE_SIZES.find? (fun p => p.1 == s)).map (·.2)

/-- Reply of the `!roll` branch on an invalid dice type. -/
def invalidDiceMsg : Str :=
  str "Invalid dice type! Please use one of the following: d4, d6, d8, d10, d12, d20, d100."

/-- The `!roll` branch: parse the dice type, attempt a random GIF (failure only
logged), then reply with the roll.  The random draws are supplied by the
oracles (`gifIdx` selects the category, `rollDraw % diceMax + 1` is the value
of `Math.floor(Math.random() * diceMax) + 1`). -/
def rollBranch (gifCats : List Str) (o : Oracles) (content : Str) : List Action :=
  let args := splitOnChar ' ' content
  let diceTypeLower := (args[1]?).map lowerStr
  match diceTypeLower.bind diceLookup with
  | none => [Action.reply invalidDiceMsg]
  | some diceMax =>
    let category := (gifCats[o.gifIdx % gifCats.length]?).getD []
    let gifActs :=
      Action.logDebug (str "Fetching GIF for category: " ++ category) ::
        match o.gif with
        | .ok url => [Action.logDebug (str "GIF URL fetched: " ++ url), Action.send url]
        | .error _ => [Action.logError (str "Error fetching GIF:")]
    let rollResult := o.rollDraw % diceMax + 1
    let diceTypeStr := (diceTypeLower).getD []
    gifActs ++
      [Action.logDebug (str "Dice roll result for " ++ diceTypeStr ++ str ": " ++ natToStr rollResult),
       Action.reply (str "You rolled a " ++ upperStr diceTypeStr ++ str " and got: **" ++
         natToStr rollResult ++ str "**")]

/-- The body of `messageCreate` past the bot/cooldown gate: log the message,
answer `!ping` with an early return, otherwise run the mention, `!ask` and
`!roll` branches in order (they are NOT mutually exclusive). -/
def messageCreateActions (gifCats : List Str) (botId : Str) (o : Oracles)
    (content : Str) (mentions : Bool) : List Action :=
  let acts0 := [Action.logInfo (str "Message received: " ++ content)]
  if content = str "!ping" then acts0 ++ [Action.reply (str "Pong!")]
  else
    let a1 :=
      if mentions then
        let q := mentionQuestion botId content
        if q = [] then [] else aiCall o q apologyBrain
      else []
    let a2 :=
      if strStartsWith content (str "!ask") then
        aiCall o (askQuestion content) apologyResponse
      else []
    let a3 :=
      if strStartsWith content (str "!roll") then rollBranch gifCats o content
      else []
    acts0 ++ a1 ++ a2 ++ a3

/-- The full `messageCreate` handler.  `st` is the process-global
`lastCommandTimestamp`, `now` is `Date.now()`.  Bot authors are ignored; a
message arriving within 5000 ms of the last processed one is dropped before
anything runs; otherwise the timestamp is set to `now` and the body runs. -/
def messageCreate (gifCats : List Str) (botId : Str) (o : Oracles)
    (st now : Int) (m : MsgIn) : Int × List Action :=
  if m.authorBot then (st, [])
  else if now - st < 5000 then (st, [])
  else (now, messageCreateActions gifCats botId o m.content m.mentionsBot)

/-! ## Startup environment checks

`part_000` (lines 5-19) checks `DISCORD_TOKEN` and `EPICGAMESFREE_KEY` and
calls `process.exit(1)` when either is absent, before the client is even
constructed; otherwise it proceeds to `client.login(token)`.  Both `index.js`
revisions (lines 27-29) merely read their keys into constants and never check
anything: startup always proceeds to `client.login(process.env.DISCORD_TOKEN)`. -/

/-- Environment of the `part_000` revision. -/
structure Part000Env where
  token : Option Str
  epicKey : Option Str
deriving DecidableEq, Repr

/-- Environment of the `index.js` revisions. -/
structure IndexEnv where
  discordToken : Option Str
  openaiKey : Option Str
  epicKey : Option Str
  giphyKey : Option Str
deriving DecidableEq, Repr

/-- Outcome of the synchronous start of the process: either `process.exit(c)`
or reaching `client.login(token)`. -/
inductive StartupResult where
  | exitCode (c : Nat)
  | login (token : Option Str)
deriving DecidableEq, Repr

/-- Whether the startup outcome is a process exit. -/
def StartupResult.isExit : StartupResult → Bool
  | .exitCode _ => true
  | .login _ => false

/-- Startup of `part_000`: check the token, then the Epic Games key, exiting
with code 1 on the first absent one; otherwise proceed to login. -/
def part000_startup (env : Part000Env) : StartupResult × List Action :=
  match env.token with
  | none =>
    (.exitCode 1,
     [Action.logError (str "Bot token not found! Make sure you have set DISCORD_TOKEN in your .env file.")])
  | some t =>
    match env.epicKey with
    | none =>
      (.exitCode 1,
       [Action.logError (str "Epic Games API key not found! Make sure you have set EPICGAMESFREE_KEY in your .env file.")])
    | some _ => (.login (some t), [])

/-- Startup of the `index.js` revisions: no checks at all, login is attempted
with whatever (possibly absent) token the environment holds. -/
def index_startup (env : IndexEnv) : StartupResult :=
  .login env.discordToken

/-! ## The refresh function and the member handlers -/

/-- The process-global mutable state of an `index.js` revision: the single
module-level `let` binding (`lastCommandTimestamp`).  There is no snapshot
field because the source keeps no invite snapshot: `fetchInvites` discards
the fetched list after logging its size. -/
structure BotState where
  lastCommandTimestamp : Int
deriving DecidableEq, Repr

/-- Embedding of `fetchInvites(guild)` of `index.js` (lines 86-94): fetch,
log the size on success, log the error on failure; nothing is stored, nothing
is thrown (the `Option Unit` escape component is always `none`). -/
def fetchInvites (st : BotState) (guildName : Str)
    (outcome : Except Str (List Invite)) : BotState × List Action × Option Unit :=
  match outcome with
  | .ok invs =>
    (st, [Action.logDebug (str "Invites for guild " ++ guildName ++ str ": " ++ natToStr invs.length)], none)
  | .error _ =>
    (st, [Action.logError (str "Error fetching invites for guild " ++ guildName ++ str ":")], none)

/-- The welcome message template shared by all revisions. -/
def welcomeMessage (m : Member) (invitedBy : Str) : Str :=
  str "\n    **" ++ m.userTag ++ str "** just joined **" ++ m.guildName ++
  str "**, Welcome!\n    **Account Created On:** " ++ m.createdAtDateString ++
  str "\n    **Invited By:** " ++ invitedBy ++
  str "\n    **Total Members:** " ++ natToStr m.memberCount ++ str "\n  "

/-- The goodbye message template. -/
def goodbyeMessage (m : Member) : Str :=
  str "\n    Goodbye, " ++ m.userTag ++ str "! We" ++ ['\''] ++
  str "re sad to see you go.\n    **Total Members:** " ++ natToStr m.memberCount ++ str "\n  "

/-- `guildMemberAdd` of `part_000` (lines 76-104): warn and return when the
welcome channel is missing; otherwise fetch the invites (no try/catch — a
failed fetch escapes the handler) and send the welcome message. -/
def part000_memberAdd (channel : Option Channel) (fetch : Except Unit (List Invite))
    (m : Member) : List Action × Option Unit :=
  match channel with
  | none => ([Action.warn (str "Welcome channel not found!")], none)
  | some _ =>
    match fetch with
    | .error e => ([Action.fetchInvitesCall], some e)
    | .ok invs =>
      ([Action.fetchInvitesCall,
        Action.sendWithAvatar (welcomeMessage m (part000_invitedBy invs)) (some m.avatarUrl)], none)

/-- `guildMemberRemove` of `part_000` (lines 107-121): warn and return when
the channel is missing; otherwise send the goodbye message. -/
def part000_memberRemove (channel : Option Channel) (m : Member) :
    List Action × Option Unit :=
  match channel with
  | none => ([Action.warn (str "Welcome channel not found!")], none)
  | some _ => ([Action.send (goodbyeMessage m)], none)

/-- `guildMemberAdd` of the first `index.js` revision (lines 211-221): no
channel check and no fetch; `invitedBy` is the constant `"Unknown"`; a missing
channel makes `channel.send` inside `sendWelcomeGoodbyeMessage` throw a
TypeError that escapes the handler, with nothing logged and nothing sent. -/
def indexRev1_memberAdd (channel : Option Channel) (m : Member) :
    List Action × Option Unit :=
  match channel with
  | none => ([], some ())
  | some _ =>
    ([Action.sendWithAvatar (welcomeMessage m (indexRev1_invitedBy m)) (some m.avatarUrl)], none)

/-- The actions of the invite-fetch section of the second revision
`guildMemberAdd` (lines 480-488): exactly one fetch; the catch logs when the
fetch or the scan throws. -/
def indexRev2_fetchActions (memberId : Str) (fetch : Except Unit (List Invite)) :
    List Action :=
  match fetch with
  | .error _ => [Action.fetchInvitesCall, Action.logError (str "Error fetching invites for guild:")]
  | .ok invs =>
    match indexRev2_scan memberId invs with
    | .error _ => [Action.fetchInvitesCall, Action.logError (str "Error fetching invites for guild:")]
    | .ok _ => [Action.fetchInvitesCall]

/-- `guildMemberAdd` of the second `index.js` revision (lines 475-499): no
channel check; invite fetch and self-filtered scan inside try/catch; then the
welcome send, which throws when the channel is missing. -/
def indexRev2_memberAdd (channel : Option Channel) (m : Member)
    (fetch : Except Unit (List Invite)) : List Action × Option Unit :=
  let acts := indexRev2_fetchActions m.userId fetch
  match channel with
  | none => (acts, some ())
  | some _ =>
    (acts ++ [Action.sendWithAvatar
        (welcomeMessage m (indexRev2_invitedBy m.userId fetch)) (some m.avatarUrl)], none)

/-- One timer tick refresh followed by a later `guildMemberAdd`, to compare
the attribution behavior around a refresh. -/
def refreshThenAttribute (st : BotState) (guildName : Str)
    (outcome : Except Str (List Invite)) (channel : Option Channel) (m : Member)
    (laterFetch : Except Unit (List Invite)) :
    BotState × (List Action × Option Unit) :=
  let r := fetchInvites st guildName outcome
  (r.1, indexRev2_memberAdd channel m laterFetch)

/-! ## Concrete inputs used by witnesses and counterexamples -/

/-- Inviter used in the concrete scenarios ("Alice", invite never used). -/
def alice : UserRef := ⟨str "5", str "Alice#1"⟩

/-- Inviter used in the concrete scenarios ("Bob", invite used 3 times). -/
def bob : UserRef := ⟨str "7", str "Bob#1"⟩

/-- Invite entry `{code: "a", inviter: Alice, uses: 0}`. -/
def aliceInvite : Invite := ⟨str "a", some alice, 0⟩

/-- Invite entry `{code: "b", inviter: Bob, uses: 3}`. -/
def bobInvite : Invite := ⟨str "b", some bob, 3⟩

/-- A concrete joining member (id 3, distinct from both inviters). -/
def memberW : Member :=
  ⟨str "3", str "Carol#9", str "Mon Jan 01 2024", str "Moon", 42, str "http://avatar"⟩

/-- Oracles whose chat-completion call always fails. -/
def oraclesFail : Oracles := ⟨fun _ => .error (), .error (), 0, 0⟩

/-- Oracles whose chat-completion call always succeeds with `"yo"`. -/
def oraclesOk : Oracles := ⟨fun _ => .ok (str "yo"), .error (), 0, 0⟩

/-- A plain non-command message from a non-bot user. -/
def msgPlain : MsgIn := ⟨str "u1", false, str "hello there", false⟩

/-- A second plain message from a different user. -/
def msgPlain2 : MsgIn := ⟨str "u2", false, str "me too", false⟩

/-- A message that mentions the bot with a non-empty question. -/
def msgMention : MsgIn := ⟨str "u1", false, str "hi bot", true⟩

/-- A message that both mentions the bot and carries the `!ask` prefix with a
non-empty remainder. -/
def msgAskMention : MsgIn := ⟨str "u1", false, str "!ask hello", true⟩

/-- Chat-completion response longer than the platform limit. -/
def longResponse : Str := List.replicate 2001 'a'

/-! ## Helper lemmas -/

/-- `strStartsWith` agrees with list-prefix decomposition. -/
theorem strStartsWith_iff (s p : Str) : strStartsWith s p = true ↔ ∃ t, s = p ++ t := by
  induction p generalizing s with
  | nil =>
    cases s <;> simp [strStartsWith]
  | cons q qs ih =>
    cases s with
    | nil => simp [strStartsWith]
    | cons c cs =>
      simp [strStartsWith, Bool.and_eq_true, beq_iff_eq, ih, List.cons_append,
        List.cons.injEq, exists_and_left]

/-- Trimming a list whose head is not whitespace cannot give the empty list. -/
theorem jsTrim_cons_ne_nil (c : Char) (xs : Str) (h : jsIsWhitespace c = false) :
    jsTrim (c :: xs) ≠ [] := by
  intro hnil
  unfold jsTrim trimStart at hnil
  rw [List.dropWhile_cons, h] at hnil
  simp only [Bool.false_eq_true, if_false] at hnil
  unfold trimEnd at hnil
  rw [List.reverse_eq_nil_iff] at hnil
  have hc : jsIsWhitespace c = true :=
    List.dropWhile_eq_nil_iff.mp hnil c (by simp)
  rw [h] at hc
  exact Bool.false_ne_true hc

/-- First-occurrence replacement skips a head that does not begin the pattern. -/
theorem replaceFirst_cons_ne (c : Char) (cs ps : Str) (q : Char) (h : (c == q) = false) :
    replaceFirst (c :: cs) (q :: ps) = c :: replaceFirst cs (q :: ps) := by
  simp [replaceFirst, strStartsWith, h]

/-- A content beginning with `!ask` still yields a non-empty question after
the mention token is removed and the result trimmed, because the leading `!`
cannot be part of the token and survives. -/
theorem mentionQuestion_ask_ne_nil (botId t : Str) :
    mentionQuestion botId (str "!ask" ++ t) ≠ [] := by
  show jsTrim (replaceFirst ('!' :: 'a' :: 's' :: 'k' :: t) (mentionToken botId)) ≠ []
  have htok : mentionToken botId = '<' :: ('@' :: '!' :: (botId ++ ['>'])) := rfl
  rw [htok, replaceFirst_cons_ne _ _ _ _ (by decide)]
  exact jsTrim_cons_ne_nil '!' _ (by decide)

/-- A content beginning with `!ask` is not the literal `!ping`. -/
theorem ask_append_ne_ping (t : Str) : str "!ask" ++ t ≠ str "!ping" := by
  intro h
  have h4 : strStartsWith (str "!ping") (str "!ask") = true := by
    rw [← h]
    exact (strStartsWith_iff _ _).mpr ⟨t, rfl⟩
  exact absurd h4 (by decide)

/-- A content beginning with `!ask` does not begin with `!roll`. -/
theorem ask_append_not_roll (t : Str) :
    strStartsWith (str "!ask" ++ t) (str "!roll") = false := rfl

/-- A guarded chat-completion call makes exactly one outbound request. -/
theorem aiCall_countOpenAI (o : Oracles) (q apo : Str) :
    (aiCall o q apo).countP Action.isOpenAICall = 1 := by
  cases hapi : o.api q <;>
    simp [aiCall, getOpenAIAnswer, hapi, List.countP_cons, Action.isOpenAICall]

/-- A guarded chat-completion call sends exactly one reply. -/
theorem aiCall_countReplies (o : Oracles) (q apo : Str) :
    (aiCall o q apo).countP Action.isReply = 1 := by
  cases hapi : o.api q <;>
    simp [aiCall, getOpenAIAnswer, hapi, List.countP_cons, Action.isReply]

/-- Dropping by a predicate the head fails leaves a replicated list intact. -/
theorem dropWhile_replicate_of_neg {p : Char → Bool} {a : Char} (h : p a = false) :
    ∀ n, List.dropWhile p (List.replicate n a) = List.replicate n a := by
  intro n
  cases n with
  | zero => rfl
  | succ k =>
    rw [List.replicate_succ, List.dropWhile_cons, h]
    simp only [Bool.false_eq_true, if_false]

/-- Chat-completion counting distributes over trace concatenation. -/
theorem countOpenAI_append (l1 l2 : List Action) :
    countOpenAI (l1 ++ l2) = countOpenAI l1 + countOpenAI l2 :=
  List.countP_append ..

/-- Reply counting distributes over trace concatenation. -/
theorem countReplies_append (l1 l2 : List Action) :
    countReplies (l1 ++ l2) = countReplies l1 + countReplies l2 :=
  List.countP_append ..

/-- The log line of the handler is neither a request nor a reply. -/
theorem countOpenAI_logInfo (s : Str) : countOpenAI [Action.logInfo s] = 0 := rfl

/-- The log line of the handler is neither a request nor a reply. -/
theorem countReplies_logInfo (s : Str) : countReplies [Action.logInfo s] = 0 := rfl

/-- Past the bot and cooldown gates the handler stamps `now` and runs the body. -/
theorem messageCreate_run (gifCats : List Str) (botId : Str) (o : Oracles)
    (st now : Int) (m : MsgIn) (h1 : m.authorBot = false) (h2 : ¬(now - st < 5000)) :
    messageCreate gifCats botId o st now m
      = (now, messageCreateActions gifCats botId o m.content m.mentionsBot) := by
  simp [messageCreate, h1, h2]

/-- General first-match property of the `part_000` scan: with every entry of a
prefix failing the predicate and the next entry satisfying it, the attributed
tag is the inviter of that entry, with no dependence on the joining member. -/
theorem part000_invitedBy_first_match (pre post : List Invite) (inv : Invite) (u : UserRef)
    (hpre : ∀ i ∈ pre, ¬(0 < i.uses ∧ i.inviter.isSome = true))
    (huses : 0 < inv.uses) (hinv : inv.inviter = some u) :
    part000_invitedBy (pre ++ inv :: post) = u.tag := by
  have hprefalse : List.find? part000_pred pre = none := by
    rw [List.find?_eq_none]
    intro i hi
    have := hpre i hi
    simp [part000_pred, Bool.and_eq_true, decide_eq_true_iff]
    intro hu
    cases hiv : i.inviter with
    | none => rfl
    | some u2 => exact absurd ⟨hu, by simp [hiv]⟩ this
  have hpinv : part000_pred inv = true := by
    simp [part000_pred, Bool.and_eq_true, decide_eq_true_iff, huses, hinv]
  simp [part000_invitedBy, part000_findUsedInvite, List.find?_append, hprefalse,
    List.find?_cons, hpinv, hinv]

/-! ## Claim theorems -/

/-- Claim C1.  The specified algorithm (attribute the first entry in stored
order with `uses > 0` and an inviter, independently of the joining member and
of which entry has the highest `uses`) is what `part_000` computes: on the
snapshot `[Alice uses 0, Bob uses 3]` it returns the tag of Bob, the first
matching entry.  The second `index.js` revision contradicts it: on a snapshot
whose single entry has `uses = 3` and inviter Bob, with joining member id 3,
it returns the sentinel `Unknown` because its scan only matches invites whose
inviter id equals the joining member id. -/
theorem first_match_vs_self_filter :
    part000_invitedBy [aliceInvite, bobInvite] = bob.tag ∧
    part000_invitedBy [bobInvite] = bob.tag ∧
    indexRev2_invitedBy memberW.userId (Except.ok [bobInvite]) = strUnknown := by
  refine ⟨?_, rfl, ?_⟩ <;> decide

/-- Claim C2, counterexample.  The claim states that `attribute` returns the
sentinel `Unknown` when the invite fetch fails; in `part_000` the fetch is not
guarded by try/catch, so on a failing fetch the handler propagates the error
and never produces the sentinel. -/
theorem attribute_fetch_error_not_unknown :
    part000_attributeResult (Except.error ()) ≠ Except.ok strUnknown := by
  intro h
  exact Except.noConfusion h

/-- Claim C2, amended.  When the invite fetch succeeds, the `part_000` lookup
returns `Unknown` exactly when no entry of the snapshot satisfies
`uses > 0` with inviter present (provided no inviter display tag is itself the
literal `Unknown`); in particular it returns `Unknown` on the empty snapshot.
When the fetch fails, `part_000` propagates the error instead of returning the
sentinel, while the second `index.js` revision catches the failure and
returns `Unknown`. -/
theorem part000_unknown_iff_no_match (invs : List Invite)
    (h : ∀ inv ∈ invs, inv.inviter.map (·.tag) ≠ some strUnknown) :
    (part000_invitedBy invs = strUnknown ↔
      ∀ inv ∈ invs, ¬(0 < inv.uses ∧ inv.inviter.isSome = true)) ∧
    part000_invitedBy [] = strUnknown ∧
    part000_attributeResult (Except.error ()) = Except.error () ∧
    (∀ mId : Str, indexRev2_invitedBy mId (Except.error ()) = strUnknown) := by
  refine ⟨?_, rfl, rfl, fun _ => rfl⟩
  cases hfind : List.find? part000_pred invs with
  | none =>
    have hall := List.find?_eq_none.mp hfind
    constructor
    · intro _ inv hmem
      have hninv := hall inv hmem
      simp only [part000_pred, Bool.and_eq_true, decide_eq_true_iff] at hninv
      exact hninv
    · intro _
      simp [part000_invitedBy, part000_findUsedInvite, hfind]
  | some inv =>
    have hpred := List.find?_some hfind
    have hmem := List.mem_of_find?_eq_some hfind
    simp only [part000_pred, Bool.and_eq_true, decide_eq_true_iff] at hpred
    obtain ⟨hu, hs⟩ := hpred
    obtain ⟨u, huv⟩ := Option.isSome_iff_exists.mp hs
    have hval : part000_invitedBy invs = u.tag := by
      simp [part000_invitedBy, part000_findUsedInvite, hfind, huv]
    have htag : u.tag ≠ strUnknown := by
      have := h inv hmem
      simp [huv] at this
      exact this
    constructor
    · intro heq
      exact absurd (hval ▸ heq) htag
    · intro hnone
      exact absurd ⟨hu, by simp [huv]⟩ (hnone inv hmem)

/-- Claim C2, witness for the amended theorem at the concrete snapshot of the
specification scenario. -/
theorem part000_unknown_iff_no_match_witness :
    part000_invitedBy [] = strUnknown ∧
    (part000_invitedBy [aliceInvite, bobInvite] = strUnknown ↔
      ∀ inv ∈ [aliceInvite, bobInvite], ¬(0 < inv.uses ∧ inv.inviter.isSome = true)) :=
  ⟨(part000_unknown_iff_no_match [] (by decide)).2.1,
   (part000_unknown_iff_no_match [aliceInvite, bobInvite] (by decide)).1⟩

/-- Claim C3.  Every `guildMemberAdd` that reaches the inviter lookup —
whether or not any snapshot was ever fetched before; the handlers keep none —
performs exactly one invite fetch, placed before anything else the lookup
does: in `part_000` (with the welcome channel present) and in the second
`index.js` revision the handler trace contains exactly one fetch action, and
it comes first. -/
theorem attribute_exactly_one_fetch (ch : Channel) (fetch : Except Unit (List Invite))
    (m : Member) (chOpt : Option Channel) (fetch2 : Except Unit (List Invite)) :
    countFetches (part000_memberAdd (some ch) fetch m).1 = 1 ∧
    (part000_memberAdd (some ch) fetch m).1.head? = some Action.fetchInvitesCall ∧
    countFetches (indexRev2_memberAdd chOpt m fetch2).1 = 1 ∧
    (indexRev2_memberAdd chOpt m fetch2).1.head? = some Action.fetchInvitesCall := by
  refine ⟨?_, ?_, ?_, ?_⟩
  · cases fetch <;>
      simp [part000_memberAdd, countFetches, List.countP_cons, Action.isFetch]
  · cases fetch <;> rfl
  · cases fetch2 with
    | error e =>
      cases chOpt <;>
        simp [indexRev2_memberAdd, indexRev2_fetchActions, countFetches,
          List.countP_cons, List.countP_append, Action.isFetch]
    | ok invs =>
      cases hscan : indexRev2_scan m.userId invs <;> cases chOpt <;>
        simp [indexRev2_memberAdd, indexRev2_fetchActions, hscan, countFetches,
          List.countP_cons, List.countP_append, Action.isFetch]
  · cases fetch2 with
    | error e => cases chOpt <;> rfl
    | ok invs =>
      cases hscan : indexRev2_scan m.userId invs <;> cases chOpt <;>
        simp [indexRev2_memberAdd, indexRev2_fetchActions, hscan]

/-- Claim C4.  A failing refresh (`fetchInvites` of `index.js`) leaves the
process state untouched, propagates no error (the escape component is
`none`), and a subsequent `guildMemberAdd` attribution behaves exactly as it
would without the failed refresh.  The revision stores no snapshot at all —
`fetchInvites` discards the fetched list after logging — so the cached state
the claim speaks of is trivially preserved. -/
theorem refresh_failure_is_swallowed (st : BotState) (g e : Str)
    (ch : Option Channel) (m : Member) (laterFetch : Except Unit (List Invite)) :
    (fetchInvites st g (Except.error e)).1 = st ∧
    (fetchInvites st g (Except.error e)).2.2 = none ∧
    refreshThenAttribute st g (Except.error e) ch m laterFetch
      = (st, indexRev2_memberAdd ch m laterFetch) :=
  ⟨rfl, rfl, rfl⟩

/-- Claim C5, counterexample.  `getOpenAIAnswer` performs no truncation: a
2001-character response is returned (and then relayed) unchanged, exceeding
the 2000-character platform limit, contradicting the claim that the relayed
text never exceeds the limit. -/
theorem untruncated_response_exceeds_limit :
    getOpenAIAnswer (Except.ok longResponse) = Except.ok longResponse ∧
    DISCORD_MESSAGE_LIMIT < longResponse.length := by
  constructor
  · show Except.ok (jsTrim longResponse) = Except.ok longResponse
    have ha : jsIsWhitespace 'a' = false := rfl
    have h1 : trimStart longResponse = longResponse :=
      dropWhile_replicate_of_neg ha 2001
    have h2 : trimEnd longResponse = longResponse := by
      unfold trimEnd longResponse
      rw [List.reverse_replicate, dropWhile_replicate_of_neg ha, List.reverse_replicate]
    rw [jsTrim, h1, h2]
  · show DISCORD_MESSAGE_LIMIT < (List.replicate 2001 'a').length
    rw [List.length_replicate]
    norm_num [DISCORD_MESSAGE_LIMIT]

/-- Claim C5, amended.  The text relayed for an `!ask` request is the
endpoint response with surrounding whitespace trimmed and nothing else: no
length truncation is applied anywhere between the endpoint and the reply, so
the relayed message exceeds the platform limit whenever the trimmed response
does. -/
theorem ask_reply_is_trimmed_response (gifCats : List Str) (botId : Str) (o : Oracles)
    (st now : Int) (m : MsgIn) (s : Str)
    (h1 : m.authorBot = false) (h2 : ¬(now - st < 5000))
    (h4 : strStartsWith m.content (str "!ask") = true)
    (hapi : o.api (askQuestion m.content) = Except.ok s) :
    Action.reply (jsTrim s) ∈ (messageCreate gifCats botId o st now m).2 ∧
    getOpenAIAnswer (Except.ok s) = Except.ok (jsTrim s) := by
  obtain ⟨t, ht⟩ := (strStartsWith_iff _ _).mp h4
  have hping : m.content ≠ str "!ping" := by
    rw [ht]; exact ask_append_ne_ping t
  refine ⟨?_, rfl⟩
  rw [messageCreate_run gifCats botId o st now m h1 h2]
  simp only [messageCreateActions, if_neg hping, h4, if_true]
  have hmem : Action.reply (jsTrim s) ∈ aiCall o (askQuestion m.content) apologyResponse := by
    simp [aiCall, getOpenAIAnswer, hapi]
  simp [List.mem_append, hmem]

/-- Claim C5, witness for the amended theorem at a concrete `!ask` message
with a successful response. -/
theorem ask_reply_is_trimmed_response_witness :
    Action.reply (jsTrim (str "yo")) ∈
      (messageCreate [] (str "9") oraclesOk 0 5000 msgAskMention).2 :=
  (ask_reply_is_trimmed_response [] (str "9") oraclesOk 0 5000 msgAskMention (str "yo")
    (by decide) (by decide) (by decide) rfl).1

/-- Claim C6.  When the chat-completion call of a user-initiated request
fails, the catch clause replies with the fixed apology of that branch and the
handler completes normally — the error is consumed inside the branch, never
surfaced. -/
theorem chat_failure_apology (gifCats : List Str) (botId : Str) (o : Oracles)
    (st now : Int) (m : MsgIn)
    (h1 : m.authorBot = false) (h2 : ¬(now - st < 5000)) (hping : m.content ≠ str "!ping") :
    (m.mentionsBot = true → mentionQuestion botId m.content ≠ [] →
      o.api (mentionQuestion botId m.content) = Except.error () →
      Action.reply apologyBrain ∈ (messageCreate gifCats botId o st now m).2) ∧
    (strStartsWith m.content (str "!ask") = true →
      o.api (askQuestion m.content) = Except.error () →
      Action.reply apologyResponse ∈ (messageCreate gifCats botId o st now m).2) := by
  rw [messageCreate_run gifCats botId o st now m h1 h2]
  constructor
  · intro hm hq herr
    simp only [messageCreateActions, if_neg hping, hm, if_true, if_neg hq]
    have hmem : Action.reply apologyBrain ∈
        aiCall o (mentionQuestion botId m.content) apologyBrain := by
      simp [aiCall, getOpenAIAnswer, herr]
    simp [List.mem_append, hmem]
  · intro hask herr
    simp only [messageCreateActions, if_neg hping, hask, if_true]
    have hmem : Action.reply apologyResponse ∈
        aiCall o (askQuestion m.content) apologyResponse := by
      simp [aiCall, getOpenAIAnswer, herr]
    simp [List.mem_append, hmem]

/-- Claim C6, witness at a concrete mention message whose chat-completion call
fails. -/
theorem chat_failure_apology_witness :
    Action.reply apologyBrain ∈
      (messageCreate [] (str "9") oraclesFail 0 5000 msgMention).2 :=
  (chat_failure_apology [] (str "9") oraclesFail 0 5000 msgMention
    (by decide) (by decide) (by decide)).1 (by decide) (by decide) rfl

/-- Claim C7, counterexample.  With every configuration variable absent the
`index.js` startup does not exit: it proceeds straight to `client.login` with
the absent token, contradicting the claim that a missing required variable
makes the process exit with a non-zero code. -/
theorem index_startup_never_exits :
    StartupResult.isExit (index_startup ⟨none, none, none, none⟩) = false := rfl

/-- Claim C7, amended.  Only the `part_000` revision checks configuration at
startup: a missing `DISCORD_TOKEN` or `EPICGAMESFREE_KEY` makes it exit with
code 1 before any gateway connection, and with both present it proceeds to
login without exiting; the `index.js` revisions read their keys without any
check and never exit at startup. -/
theorem startup_env_checks (env : Part000Env) (ienv : IndexEnv) :
    ((env.token = none ∨ env.epicKey = none) →
      (part000_startup env).1 = StartupResult.exitCode 1) ∧
    (∀ t k, env.token = some t → env.epicKey = some k →
      (part000_startup env).1 = StartupResult.login (some t)) ∧
    StartupResult.isExit (index_startup ienv) = false := by
  refine ⟨?_, ?_, rfl⟩
  · rintro (h | h)
    · simp [part000_startup, h]
    · cases htok : env.token with
      | none => simp [part000_startup, htok]
      | some t => simp [part000_startup, htok, h]
  · intro t k ht hk
    simp [part000_startup, ht, hk]

/-- Claim C7, witness: the amended theorem applied to concrete environments
with the token absent, and with both variables present. -/
theorem startup_env_checks_witness :
    (part000_startup ⟨none, some (str "k")⟩).1 = StartupResult.exitCode 1 ∧
    (part000_startup ⟨some (str "t"), some (str "k")⟩).1
      = StartupResult.login (some (str "t")) :=
  ⟨(startup_env_checks ⟨none, some (str "k")⟩ ⟨none, none, none, none⟩).1 (Or.inl rfl),
   (startup_env_checks ⟨some (str "t"), some (str "k")⟩ ⟨none, none, none, none⟩).2.1
     (str "t") (str "k") rfl rfl⟩

/-- Claim C8, counterexample.  In the first `index.js` revision a
`guildMemberAdd` with an unresolvable welcome channel logs no warning and
lets a TypeError escape the handler (the escape component is `some ()`),
contradicting the claim that the operation is skipped silently after a
warning with no escaping error. -/
theorem missing_channel_error_escapes :
    (indexRev1_memberAdd none memberW).1 = [] ∧
    (indexRev1_memberAdd none memberW).2 = some () :=
  ⟨rfl, rfl⟩

/-- Claim C8, amended.  Only the `part_000` revision guards the channel: on a
missing welcome channel its join and leave handlers log exactly the warning,
attempt no send, and let no error escape; the `index.js` revisions perform no
check, and the missing channel makes the send throw an error that escapes the
handler with nothing logged. -/
theorem missing_channel_skip_behavior (fetch : Except Unit (List Invite)) (m m2 m3 : Member) :
    part000_memberAdd none fetch m
      = ([Action.warn (str "Welcome channel not found!")], none) ∧
    (∀ a ∈ (part000_memberAdd none fetch m).1, Action.isSend a = false) ∧
    part000_memberRemove none m2
      = ([Action.warn (str "Welcome channel not found!")], none) ∧
    (indexRev1_memberAdd none m3).2 = some () ∧
    (indexRev1_memberAdd none m3).1 = [] := by
  refine ⟨rfl, ?_, rfl, rfl, rfl⟩
  intro a ha
  simp only [part000_memberAdd, List.mem_singleton] at ha
  subst ha
  rfl

/-- Claim C9.  The cooldown is a single process-global timestamp: any
processed non-bot message — whatever its content and author, command or not —
stamps the time, and any non-bot message arriving within 5000 ms of that
stamp, from any author, is dropped with no action at all. -/
theorem cooldown_global (gifCats : List Str) (botId : Str) (o o2 : Oracles)
    (st now1 now2 : Int) (m1 m2 : MsgIn)
    (h1 : m1.authorBot = false) (h2 : ¬(now1 - st < 5000))
    (h3 : m2.authorBot = false) (h4 : now2 - now1 < 5000) :
    (messageCreate gifCats botId o st now1 m1).1 = now1 ∧
    messageCreate gifCats botId o2 now1 now2 m2 = (now1, []) := by
  constructor
  · rw [messageCreate_run gifCats botId o st now1 m1 h1 h2]
  · simp [messageCreate, h3, h4]

/-- Claim C9, witness: two concrete plain messages from different users, the
second arriving 1 ms after the first was processed. -/
theorem cooldown_global_witness :
    (messageCreate [] (str "9") oraclesFail 0 5000 msgPlain).1 = 5000 ∧
    messageCreate [] (str "9") oraclesFail 5000 5001 msgPlain2 = (5000, []) :=
  cooldown_global [] (str "9") oraclesFail oraclesFail 0 5000 5001 msgPlain msgPlain2
    (by decide) (by decide) (by decide) (by decide)

/-- Claim C10.  The mention and `!ask` branches are independent `if`
statements: one non-bot message outside the cooldown that both mentions the
bot and starts with `!ask` (its remainder non-empty) triggers two separate
chat-completion requests and two replies. -/
theorem mention_and_ask_double_answer (gifCats : List Str) (botId : Str) (o : Oracles)
    (st now : Int) (m : MsgIn)
    (h1 : m.authorBot = false) (h2 : ¬(now - st < 5000))
    (h3 : m.mentionsBot = true)
    (h4 : strStartsWith m.content (str "!ask") = true)
    (_h5 : askQuestion m.content ≠ []) :
    countOpenAI (messageCreate gifCats botId o st now m).2 = 2 ∧
    countReplies (messageCreate gifCats botId o st now m).2 = 2 := by
  obtain ⟨t, ht⟩ := (strStartsWith_iff _ _).mp h4
  have hping : m.content ≠ str "!ping" := by
    rw [ht]; exact ask_append_ne_ping t
  have hq : mentionQuestion botId m.content ≠ [] := by
    rw [ht]; exact mentionQuestion_ask_ne_nil botId t
  have hroll : strStartsWith m.content (str "!roll") = false := by
    rw [ht]; exact ask_append_not_roll t
  rw [messageCreate_run gifCats botId o st now m h1 h2]
  have hacts : messageCreateActions gifCats botId o m.content m.mentionsBot
      = [Action.logInfo (str "Message received: " ++ m.content)] ++
        aiCall o (mentionQuestion botId m.content) apologyBrain ++
        aiCall o (askQuestion m.content) apologyResponse ++ [] := by
    simp only [messageCreateActions, if_neg hping, h3, if_true, if_neg hq, h4, hroll,
      Bool.false_eq_true, if_false]
  rw [hacts]
  constructor <;>
    simp [countOpenAI, countReplies, List.countP_append, List.countP_cons,
      aiCall_countOpenAI, aiCall_countReplies, Action.isOpenAICall, Action.isReply]

/-- Claim C10, witness at a concrete message that mentions the bot and starts
with `!ask hello`. -/
theorem mention_and_ask_double_answer_witness :
    countOpenAI (messageCreate [] (str "9") oraclesFail 0 5000 msgAskMention).2 = 2 ∧
    countReplies (messageCreate [] (str "9") oraclesFail 0 5000 msgAskMention).2 = 2 :=
  mention_and_ask_double_answer [] (str "9") oraclesFail 0 5000 msgAskMention
    (by decide) (by decide) (by decide) (by decide) (by decide)

end MoonBot
